import Mathlib

/-!
Verification of the row-cache and document-reconciliation engine of the
Ecophil-Scraper-API repository.

The development shallowly embeds the Python modules that the claims cite:

* app/models/scraper.py and app/schemas/scraper.py (the Row, Dates and
  Document pydantic models and their validators);
* app/utils/cache/row_cache.py (cache_row, remove_row_from_csv,
  get_reference_numbers, check_scraped and the private reference-number
  check);
* app/data_processing/dataframe.py (get_date_from_container_number);
* app/scraper/intercommerce_scraper.py (the crawl loop crawl_database with
  its per-page worker, the reconciliation loop, and the release-status
  classifier) together with the older revision in app/scraper/scraper.py.

The persistent rows.csv store of one save directory is modelled as an
Option of a list of rows: none is an absent backing file, some rows is a
present file holding those rows in order.  Each Python function that mutates
the file returns the new store value; a raised exception is an explicit
error value.  Calendar dates are triples of naturals; the serialized CSV
form of a date is an explicit character list, so that the type-preserving
round trip performed by cache_row (polars write_csv followed by
str.to_date with format %Y-%m-%d) can be stated and proved.
-/

namespace Ecophil

/-- Exceptions that the embedded code can raise.  The first four are the
repository exception classes from app/utils/exceptions.py that the claims
mention; attributeError, valueError and indexError model the Python
builtin exceptions that the source can raise and does not catch. -/
inductive PyErr where
  | invalidDocument
  | alreadyCached
  | loginFailed
  | loadingFailed
  | attributeError
  | valueError
  | indexError
deriving DecidableEq, Repr

/-- Calendar date, as in the Python datetime.date values stored in
Row.creation_date and in the Dates window. -/
structure Date where
  year : Nat
  month : Nat
  day : Nat
deriving DecidableEq, Repr

/-- Strict order on dates.  Python compares datetime.date values by
year, then month, then day, which is this lexicographic test. -/
def dateLt (a b : Date) : Bool :=
  a.year < b.year ||
    (a.year == b.year &&
      (a.month < b.month || (a.month == b.month && a.day < b.day)))

/-- Day count of a civil date (days since 0000-03-01, Hinnant civil
algorithm).  Python date subtraction returns a timedelta whose day count is
the difference of the two proleptic-Gregorian ordinals; only differences of
this function are ever used, so the epoch offset is irrelevant. -/
def toOrdinal (dt : Date) : Nat :=
  let y := if dt.month ≤ 2 then dt.year - 1 else dt.year
  let era := y / 400
  let yoe := y % 400
  let mp := (dt.month + 9) % 12
  let doy := (153 * mp + 2) / 5 + dt.day - 1
  let doe := yoe * 365 + yoe / 4 - yoe / 100 + doy
  era * 146097 + doe

/-- Difference end minus start in days, as an integer, matching the Python
expression end_date - start_date whose value is a timedelta. -/
def daysBetween (s e : Date) : Int :=
  (toOrdinal e : Int) - (toOrdinal s : Int)

/-- One scraped table entry, the Row model of app/models/scraper.py with
its eight fields.  The creation_date field already has date type, as after
Row.from_array parses the source timestamp. -/
structure Row where
  reference_number : String
  status : String
  document_declaration_type : String
  consignee : String
  waybill : String
  number_of_containers : String
  document_number : String
  creation_date : Date
deriving DecidableEq, Repr

/-- The clean_reference_number field validator of the Row model: strip
internal dash characters and surrounding whitespace.  Every Row built
through the model therefore stores the normalized key. -/
def clean_reference_number (reference_number : String) : String :=
  (reference_number.replace "-" "").trim

/-- The persistent rows.csv store of one save directory: none when the
backing file does not exist, some rows when it does. -/
abbrev Store := Option (List Row)

/-- Embedding of the private helper in row_cache.py that scans the cached
CSV for a reference number: the filtered frame is non-empty exactly when
some cached row carries the given key. -/
def check_reference_number (reference_number : String) (rows : List Row) : Bool :=
  !((rows.filter (fun r => r.reference_number == reference_number)).isEmpty)

/-- Embedding of cache_row in app/utils/cache/row_cache.py.  The result is
the store after the call together with the exception raised, if any.

If the backing file is absent the whole list is written as the new store.
Otherwise the code reads row[0].reference_number (an IndexError on an empty
list, before any write) and raises CachedException when that key is already
cached, without writing; otherwise it loads the old store, re-parses its
creation_date column to date type, concatenates the new rows and rewrites
the file.  In the absent-file branch the Python also evaluates row[0] in a
log line after the write, so an empty list yields an IndexError there too,
after the store was already created. -/
def cache_row (row : List Row) (store : Store) : Store × Option PyErr :=
  match store with
  | none =>
    match row with
    | [] => (some [], some .indexError)
    | _ => (some row, none)
  | some old_cache =>
    match row with
    | [] => (some old_cache, some .indexError)
    | r0 :: _ =>
      if check_reference_number r0.reference_number old_cache then
        (some old_cache, some .alreadyCached)
      else
        (some (old_cache ++ row), none)

/-- The row-level filter of remove_row_from_csv: polars remove drops every
row whose reference_number column equals the given key. -/
def remove_rows (reference_number : String) (rows : List Row) : List Row :=
  rows.filter (fun r => !(r.reference_number == reference_number))

/-- Embedding of remove_row_from_csv in row_cache.py: a no-op when the
backing file is absent, otherwise load, filter the key out, rewrite. -/
def remove_row_from_csv (reference_number : String) (store : Store) : Store :=
  match store with
  | none => none
  | some rows => some (remove_rows reference_number rows)

/-- Embedding of get_reference_numbers in row_cache.py.  When the backing
file exists the function returns the reference_number column; when it does
not, control falls off the end of the function and Python returns None,
modelled as the value none (distinct from some of the empty list). -/
def get_reference_numbers (store : Store) : Option (List String) :=
  match store with
  | none => none
  | some rows => some (rows.map (fun r => r.reference_number))

/-- A row of a table carrying the scraped boolean column that check_scraped
selects. -/
structure ScrapedRow where
  reference_number : String
  scraped : Bool
deriving DecidableEq, Repr

/-- Embedding of check_scraped in row_cache.py.  When the backing file is
absent the Python function returns None (outer none).  When it is present
the code filters on the key and calls item() on the scraped column of the
result: item() returns the value when the filtered frame has exactly one
row and raises a ValueError otherwise, in particular when the key is absent
from the store. -/
def check_scraped (reference_number : String) (store : Option (List ScrapedRow)) :
    Option (Except PyErr Bool) :=
  match store with
  | none => none
  | some rows =>
    match rows.filter (fun r => r.reference_number == reference_number) with
    | [r] => some (.ok r.scraped)
    | _ => some (.error .valueError)

/-- The Dates crawl window: a start_date and end_date pair, shared by both
revisions of the model (app/models/scraper.py and app/schemas/scraper.py). -/
structure Dates where
  start_date : Date
  end_date : Date
deriving DecidableEq, Repr

/-- Embedding of the validate_date_range field validator on end_date shared
by both Dates revisions.  The pydantic ValidationInfo may lack start_date
when that field itself failed, hence the Option; a date object is always
truthy, so the truthiness guard of the source reduces to the match.  The
check raises ValueError when end_date minus start_date exceeds a one-week
timedelta, i.e. when the day difference exceeds 7. -/
def validate_date_range (start_date : Option Date) (end_date : Date) :
    Except PyErr Date :=
  match start_date with
  | none => .ok end_date
  | some s =>
    if 7 < daysBetween s end_date then .error .valueError else .ok end_date

/-- Construction of the Dates model in app/models/scraper.py: the fields
are plain dates, so the only validation is the one-week range check. -/
def models_dates_construct (start_date end_date : Date) : Except PyErr Dates :=
  match validate_date_range (some start_date) end_date with
  | .error e => .error e
  | .ok e => .ok ⟨start_date, e⟩

/-- The pydantic PastDate constraint used by app/schemas/scraper.py: the
field value must be strictly before the current date. -/
def is_past_date (today d : Date) : Bool := dateLt d today

/-- Construction of the Dates model in app/schemas/scraper.py: both fields
are PastDate, so each must lie strictly before today, and then the shared
one-week range validator runs on end_date.  Pydantic collects the field
errors and raises a ValidationError whenever any constraint fails. -/
def schemas_dates_construct (today start_date end_date : Date) :
    Except PyErr Dates :=
  if !(is_past_date today start_date) then .error .valueError
  else if !(is_past_date today end_date) then .error .valueError
  else
    match validate_date_range (some start_date) end_date with
    | .error e => .error e
    | .ok e => .ok ⟨start_date, e⟩

/-- The add_label field validator on Document.quantity in
app/models/scraper.py: when the previously validated container_type field
is LCL the unit label is appended to the quantity text. -/
def add_label (container_type quantity : String) : String :=
  if container_type == "LCL" then quantity ++ " PK - PACKAGE" else quantity

/-- The Document model of app/models/scraper.py: invoice number, container
type and quantity, the last normalized by the add_label validator. -/
structure Document where
  invoice_number : String
  container_type : String
  quantity : String
deriving DecidableEq, Repr

/-- Construction of the Document model: container_type is declared before
quantity, so pydantic validates it first and add_label can read it. -/
def mk_document (invoice_number container_type quantity : String) : Document :=
  { invoice_number := invoice_number
    container_type := container_type
    quantity := add_label container_type quantity }

/-!
Crawl window controller: the per-page worker and the page loop of
app/scraper/intercommerce_scraper.py.
-/

/-- Line 167 of app/scraper/intercommerce_scraper.py reads the attribute
creaton_date of the current Row, a misspelling of creation_date.  A
pydantic model has no such attribute and the access raises AttributeError,
which the except clause of the loop (InvalidDocumentException,
CachedException, ValueError) does not catch.  The misspelled access is
embedded as an always-failing lookup. -/
def creaton_date (_ : Row) : Except PyErr Date := .error .attributeError

/-- Result of one run of the per-page worker over the in-page row range:
the worker returned True (advance to the next page), returned False (stop
crawling), or let an exception escape.  Each constructor carries the store
left behind. -/
inductive PageResult where
  | nextPage (store : Store)
  | done (store : Store)
  | raised (e : PyErr) (store : Store)
deriving DecidableEq, Repr

/-- Embedding of the loop body of _process_rows in
app/scraper/intercommerce_scraper.py, over the list of rows the page shows
at indices 15 to 24.  Per row: a row past end_date or with a status other
than AG raises InvalidDocumentException, caught by the loop, which
continues; otherwise the stop check compares start_date against the
misspelled creaton_date attribute; a row that survives both checks is
cached, a CachedException being caught and skipped.  Exhausting the range
returns True. -/
def process_rows (dates : Dates) (rows : List Row) (store : Store) : PageResult :=
  match rows with
  | [] => .nextPage store
  | row :: rest =>
    if dateLt dates.end_date row.creation_date || !(row.status == "AG") then
      process_rows dates rest store
    else
      match creaton_date row with
      | .error e => .raised e store
      | .ok cd =>
        if dateLt cd dates.start_date then .done store
        else
          match cache_row [row] store with
          | (st, some .alreadyCached) => process_rows dates rest st
          | (st, some e) => .raised e st
          | (st, none) => process_rows dates rest st

/-- Outcome of crawl_database: the loop broke out after a page worker
returned False, an uncaught exception aborted the crawl, or the supplied
page sequence ran out while the loop would have kept requesting pages. -/
inductive CrawlResult where
  | finished (store : Store)
  | aborted (e : PyErr) (store : Store)
  | outOfPages (store : Store)
deriving DecidableEq, Repr

/-- Embedding of the while-true loop of crawl_database in
app/scraper/intercommerce_scraper.py, with the paginated remote listing
supplied as the list of row lists the successive page offsets return. -/
def crawl_database (dates : Dates) (pages : List (List Row)) (store : Store) :
    CrawlResult :=
  match pages with
  | [] => .outOfPages store
  | page :: rest =>
    match process_rows dates page store with
    | .done st => .finished st
    | .raised e st => .aborted e st
    | .nextPage st => crawl_database dates rest st

/-!
Document reconciliation: the event-log lookup of
app/data_processing/dataframe.py and the per-reference loop of
_process_documents in app/scraper/intercommerce_scraper.py.
-/

/-- One row of a terminal event export (ati.csv or mictsi.csv): container
identifier, event kind, and the event date.  The date cell is kept as the
value the to_datetime conversion of the source produces; its content never
influences the lookup result, only the filter columns do. -/
structure EventRow where
  container : String
  point_event : String
  event_date : Nat
deriving DecidableEq, Repr

/-- Embedding of get_date_from_container_number in
app/data_processing/dataframe.py: filter the export to the rows of the
given container whose Point Event column is ARRIVE; an empty result raises
InvalidDocumentException, a non-empty one returns the Event Date column. -/
def get_date_from_container_number (container_number : String)
    (table : List EventRow) : Except PyErr (List Nat) :=
  let q := table.filter
    (fun r => r.container == container_number && r.point_event == "ARRIVE")
  if q.isEmpty then .error .invalidDocument
  else .ok (q.map (fun r => r.event_date))

/-- Outcome of the body of the try block of _process_documents for one
reference: it ran to completion, or it raised InvalidDocumentException
(server-error marker, missing release table, missing document fields, or a
failed event-log lookup), or it raised CachedException (the reference was
already scraped).  The body depends only on remote page state and the
downloaded exports, so it enters the embedding as a function of the
reference. -/
inductive DocOutcome where
  | ok
  | invalidDoc
  | cached
deriving DecidableEq, Repr

/-- The for loop of _process_documents: walk the reference numbers read
from rows.csv at entry; a reference whose body raises
InvalidDocumentException or CachedException is removed from rows.csv by
remove_row_from_csv and the loop continues with the next reference; a
successful body writes nothing back in this revision. -/
def process_documents_loop (outcome : String → DocOutcome) :
    List String → List Row → List Row
  | [], st => st
  | ref :: refs, st =>
    match outcome ref with
    | .ok => process_documents_loop outcome refs st
    | _ => process_documents_loop outcome refs (remove_rows ref st)

/-- Embedding of _process_documents in
app/scraper/intercommerce_scraper.py over a present rows.csv store. -/
def process_documents (outcome : String → DocOutcome) (store : List Row) :
    List Row :=
  process_documents_loop outcome (store.map (fun r => r.reference_number)) store

/-!
Release-status classifiers.
-/

/-- Python truthiness of a string: the empty string is falsy, every other
string is truthy. -/
def pyTruthy (s : String) : Bool := !(s == "")

/-- Embedding of _get_release_status in
app/scraper/intercommerce_scraper.py, faithful to the Python evaluation of
its second branch: the source line tests the expression composed of the
literal Approved or-combined with the membership test of Auto-Inspected, so
the literal, being a non-empty string, makes the branch condition true by
itself. -/
def get_release_status (data : List String) : Option String :=
  if data.contains "Released" || data.contains "Transferred" then some "Released"
  else if pyTruthy "Approved" || data.contains "Auto-Inspected" then some "Approved"
  else none

/-- Embedding of _get_release_table in app/scraper/scraper.py, the older
revision of the classifier: a true membership test, but for Approved only,
with no Auto-Inspected alternative. -/
def get_release_table (data : List String) : Option String :=
  if data.contains "Released" || data.contains "Transferred" then some "Released"
  else if data.contains "Approved" then some "Approved"
  else none

/-- The classifier as the specification words it: a true membership test
against the pair of Approved and Auto-Inspected in the middle branch. -/
def release_status_spec (data : List String) : Option String :=
  if data.contains "Released" || data.contains "Transferred" then some "Released"
  else if data.contains "Approved" || data.contains "Auto-Inspected" then some "Approved"
  else none

/-- The derived per-shipment release record (DataFrameModel in
app/models/scraper.py), restricted to the fields the claims mention. -/
structure ReleaseRecord where
  reference_number : String
  quantity : String
  document_status : String
  release_status : String
deriving DecidableEq, Repr

/-- Modelled from the spec: the reconciliation engine never emits a release
record in the source under src (the _process_documents body stops at a
bare pass after fetching the document and the release status), so the LCL
emission step is taken from section 4.4 of the specification: for an LCL
shipment the release_status is derived directly from document_status, with
no container-level event lookup, and the quantity is the label-normalized
quantity of the Document model. -/
def lcl_release_record (reference_number : String) (doc : Document)
    (document_status : String) : ReleaseRecord :=
  { reference_number := reference_number
    quantity := doc.quantity
    document_status := document_status
    release_status := document_status }

/-!
Serialized form of the store.  Polars write_csv renders a date column as
ISO text year-month-day with zero padding, and line 41 of row_cache.py
re-parses that column with str.to_date and the format %Y-%m-%d before
concatenating a new row.  The rendering and the parse are embedded over
explicit character lists.
-/

/-- The ten decimal digit characters in value order. -/
def digitChars : List Char := ['0', '1', '2', '3', '4', '5', '6', '7', '8', '9']

/-- Character a decimal digit renders to. -/
def digitChar (d : Nat) : Char := digitChars.getD d '*'

/-- Numeric value of a decimal digit character, none for any other
character. -/
def charDigit (c : Char) : Option Nat :=
  if c = '0' then some 0
  else if c = '1' then some 1
  else if c = '2' then some 2
  else if c = '3' then some 3
  else if c = '4' then some 4
  else if c = '5' then some 5
  else if c = '6' then some 6
  else if c = '7' then some 7
  else if c = '8' then some 8
  else if c = '9' then some 9
  else none

/-- Little-endian digit list of a natural number; a number below ten is a
single digit. -/
def natDigits (n : Nat) : List Nat :=
  if h : n < 10 then [n]
  else (n % 10) :: natDigits (n / 10)
termination_by n
decreasing_by exact Nat.div_lt_self (by omega) (by omega)

/-- Decimal rendering of a natural number as characters, most significant
digit first. -/
def natToChars (n : Nat) : List Char := (natDigits n).reverse.map digitChar

/-- Left zero padding to a field width, as in the fixed-width date
components of the ISO form. -/
def padLeft (w : Nat) (cs : List Char) : List Char :=
  List.replicate (w - cs.length) '0' ++ cs

/-- The character list of the ISO rendering of a date: four-digit year,
dash, two-digit month, dash, two-digit day. -/
def dateChars (dt : Date) : List Char :=
  padLeft 4 (natToChars dt.year) ++
    '-' :: (padLeft 2 (natToChars dt.month) ++ '-' :: padLeft 2 (natToChars dt.day))

/-- Serialized CSV text of a date, the form write_csv stores. -/
def date_to_iso (dt : Date) : String := String.mk (dateChars dt)

/-- Left-to-right accumulation of a decimal numeral; fails on the first
character that is not a digit. -/
def parseDigitsAcc (acc : Nat) : List Char → Option Nat
  | [] => some acc
  | c :: cs =>
    match charDigit c with
    | none => none
    | some d => parseDigitsAcc (acc * 10 + d) cs

/-- Decimal numeral parse: at least one character, all digits. -/
def parseNat (cs : List Char) : Option Nat :=
  if cs = [] then none else parseDigitsAcc 0 cs

/-- Split a character list at every dash. -/
def splitDash : List Char → List (List Char)
  | [] => [[]]
  | c :: cs =>
    if c = '-' then [] :: splitDash cs
    else
      match splitDash cs with
      | [] => [[c]]
      | p :: ps => (c :: p) :: ps

/-- Number of days of a month in the proleptic Gregorian calendar. -/
def daysInMonth (y m : Nat) : Nat :=
  if m = 2 then (if y % 4 = 0 ∧ (y % 100 ≠ 0 ∨ y % 400 = 0) then 29 else 28)
  else if m = 4 ∨ m = 6 ∨ m = 9 ∨ m = 11 then 30
  else 31

/-- A representable calendar date: month and day in calendar range and the
year within the four-digit range of the %Y directive and of the Python
date type. -/
def ValidDate (dt : Date) : Prop :=
  1 ≤ dt.month ∧ dt.month ≤ 12 ∧ 1 ≤ dt.day ∧
    dt.day ≤ daysInMonth dt.year dt.month ∧ dt.year ≤ 9999

instance : DecidablePred ValidDate := fun dt => by
  unfold ValidDate; infer_instance

/-- Embedding of the str.to_date conversion with format %Y-%m-%d applied to
one cell: the text must consist of three dash-separated decimal numerals
forming a representable calendar date; any other content makes the chrono
parse underneath polars raise, which the callers do not catch. -/
def str_to_date (s : String) : Option Date :=
  match splitDash s.data with
  | [ys, ms, ds] =>
    match parseNat ys, parseNat ms, parseNat ds with
    | some y, some m, some d =>
      if ValidDate ⟨y, m, d⟩ then some ⟨y, m, d⟩ else none
    | _, _, _ => none
  | _ => none

/-- One line of rows.csv: the seven text columns unchanged and the
creation_date column as serialized text, the only column whose type the
CSV form loses. -/
structure CsvRow where
  reference_number : String
  status : String
  document_declaration_type : String
  consignee : String
  waybill : String
  number_of_containers : String
  document_number : String
  creation_date : String
deriving DecidableEq, Repr

/-- Serialization of one Row by write_csv: every text column is stored as
is, the date column as its ISO text. -/
def write_row (r : Row) : CsvRow :=
  { reference_number := r.reference_number
    status := r.status
    document_declaration_type := r.document_declaration_type
    consignee := r.consignee
    waybill := r.waybill
    number_of_containers := r.number_of_containers
    document_number := r.document_number
    creation_date := date_to_iso r.creation_date }

/-- Re-typing of one loaded CSV line, the per-row effect of the
with_columns str.to_date call at line 41 of row_cache.py. -/
def load_row (c : CsvRow) : Option Row :=
  (str_to_date c.creation_date).map
    (fun dt =>
      { reference_number := c.reference_number
        status := c.status
        document_declaration_type := c.document_declaration_type
        consignee := c.consignee
        waybill := c.waybill
        number_of_containers := c.number_of_containers
        document_number := c.document_number
        creation_date := dt })

/-- Serialization of a whole store by write_csv. -/
def write_store (rows : List Row) : List CsvRow := rows.map write_row

/-- Loading a serialized store back to typed rows; fails if any date cell
fails to re-parse. -/
def load_store_typed : List CsvRow → Option (List Row)
  | [] => some []
  | c :: cs =>
    match load_row c, load_store_typed cs with
    | some r, some rs => some (r :: rs)
    | _, _ => none

/-- The append path of cache_row at the serialized level, lines 39 to 45 of
row_cache.py: load the existing cache, re-parse its creation_date column to
date type, concatenate the new row, and write the result back as CSV. -/
def append_row_csv (r : Row) (cache : List CsvRow) : Option (List CsvRow) :=
  (load_store_typed cache).map (fun old_cache => write_store (old_cache ++ [r]))

/-!
Helper lemmas.
-/

theorem check_reference_number_false_iff (reference_number : String) (rows : List Row) :
    check_reference_number reference_number rows = false ↔
      ∀ r ∈ rows, r.reference_number ≠ reference_number := by
  simp [check_reference_number, List.isEmpty_iff, List.filter_eq_nil_iff]

/-- One store operation: a cache_row call given a single-row list, as at
every call site of the repository, or a remove_row_from_csv call. -/
inductive CacheOp where
  | cache1 (r : Row)
  | removeRow (reference_number : String)

/-- Effect of one store operation on the backing store. -/
def apply_op (store : Store) (op : CacheOp) : Store :=
  match op with
  | .cache1 r => (cache_row [r] store).1
  | .removeRow reference_number => remove_row_from_csv reference_number store

/-- Store left by a sequence of operations run against an initially absent
backing store. -/
def apply_ops (ops : List CacheOp) : Store := ops.foldl apply_op none

/-- The dedup invariant: the store, when present, holds no two rows with
the same reference number. -/
def store_nodup : Store → Prop
  | none => True
  | some rows => (rows.map (fun r => r.reference_number)).Nodup

theorem store_nodup_apply_op (store : Store) (op : CacheOp)
    (h : store_nodup store) : store_nodup (apply_op store op) := by
  cases op with
  | cache1 r =>
    cases store with
    | none => simp [apply_op, cache_row, store_nodup]
    | some rows =>
      by_cases hc : check_reference_number r.reference_number rows
      · simpa [apply_op, cache_row, hc, store_nodup] using h
      · have hnotmem : r.reference_number ∉
            rows.map (fun x => x.reference_number) := by
          rw [List.mem_map]
          rintro ⟨x, hx, hxe⟩
          exact ((check_reference_number_false_iff _ _).mp
            (Bool.not_eq_true _ ▸ hc) x hx) hxe
        simp only [apply_op, cache_row, hc, if_false, store_nodup,
          List.map_append, Bool.false_eq_true]
        exact List.Nodup.append h (List.nodup_singleton _)
          (List.disjoint_singleton.mpr hnotmem)
  | removeRow reference_number =>
    cases store with
    | none => exact h
    | some rows =>
      have hsub : ((remove_rows reference_number rows).map
          (fun r => r.reference_number)).Sublist
            (rows.map (fun r => r.reference_number)) :=
        (List.filter_sublist rows).map _
      exact List.Nodup.sublist hsub h

/-!
Claim theorems.
-/

/-- C3 counterexample: a single cache_row call given a list that repeats
one reference number, run against an absent store, creates a store holding
two rows with the same reference number; the repeated key is written twice
because only the first element of the list is checked and the absent-store
branch writes the list wholesale. -/
theorem c3_cache_row_multi_duplicate :
    (cache_row [⟨"R1", "AG", "t", "c", "w", "1", "d", ⟨2024, 1, 2⟩⟩,
        ⟨"R1", "AG", "t", "c", "w", "1", "d", ⟨2024, 1, 2⟩⟩] none).1 =
      some [⟨"R1", "AG", "t", "c", "w", "1", "d", ⟨2024, 1, 2⟩⟩,
        ⟨"R1", "AG", "t", "c", "w", "1", "d", ⟨2024, 1, 2⟩⟩] ∧
    ¬ (([⟨"R1", "AG", "t", "c", "w", "1", "d", ⟨2024, 1, 2⟩⟩,
        ⟨"R1", "AG", "t", "c", "w", "1", "d", ⟨2024, 1, 2⟩⟩] : List Row).map
          (fun r => r.reference_number)).Nodup := by
  decide

/-- C3 amended: for every sequence of cache_row calls given single-row
lists, as at every call site of the repository, and remove_row_from_csv
calls, starting from an absent store, the resulting store never contains
two entries with the same reference number. -/
theorem c3_single_row_ops_nodup (ops : List CacheOp) :
    store_nodup (apply_ops ops) := by
  have main : ∀ (l : List CacheOp) (store : Store), store_nodup store →
      store_nodup (List.foldl apply_op store l) := by
    intro l
    induction l with
    | nil => intro store h; exact h
    | cons op l ih =>
      intro store h
      exact ih _ (store_nodup_apply_op store op h)
  exact main ops none trivial

/-- Membership in the store left by the reconciliation loop over an
explicit reference list: a row survives exactly when no visited reference
with a failing outcome matches its key. -/
theorem process_documents_loop_mem (outcome : String → DocOutcome)
    (refs : List String) (st : List Row) (r : Row) :
    r ∈ process_documents_loop outcome refs st ↔
      (r ∈ st ∧ ∀ a ∈ refs, outcome a = .ok ∨ r.reference_number ≠ a) := by
  induction refs generalizing st with
  | nil => simp [process_documents_loop]
  | cons a refs ih =>
    cases ha : outcome a with
    | ok =>
      simp only [process_documents_loop, ha, ih, List.mem_cons]
      constructor
      · rintro ⟨hr, hall⟩
        refine ⟨hr, ?_⟩
        rintro b (rfl | hb)
        · exact Or.inl ha
        · exact hall b hb
      · rintro ⟨hr, hall⟩
        exact ⟨hr, fun b hb => hall b (Or.inr hb)⟩
    | invalidDoc =>
      simp only [process_documents_loop, ha, ih, List.mem_cons, remove_rows,
        List.mem_filter, Bool.not_eq_eq_eq_not, Bool.not_true, beq_eq_false_iff_ne,
        ne_eq]
      constructor
      · rintro ⟨⟨hr, hne⟩, hall⟩
        refine ⟨hr, ?_⟩
        rintro b (rfl | hb)
        · exact Or.inr hne
        · exact hall b hb
      · rintro ⟨hr, hall⟩
        have hne : r.reference_number ≠ a := by
          rcases hall a (Or.inl rfl) with hok | hne
          · rw [ha] at hok; cases hok
          · exact hne
        exact ⟨⟨hr, hne⟩, fun b hb => hall b (Or.inr hb)⟩
    | cached =>
      simp only [process_documents_loop, ha, ih, List.mem_cons, remove_rows,
        List.mem_filter, Bool.not_eq_eq_eq_not, Bool.not_true, beq_eq_false_iff_ne,
        ne_eq]
      constructor
      · rintro ⟨⟨hr, hne⟩, hall⟩
        refine ⟨hr, ?_⟩
        rintro b (rfl | hb)
        · exact Or.inr hne
        · exact hall b hb
      · rintro ⟨hr, hall⟩
        have hne : r.reference_number ≠ a := by
          rcases hall a (Or.inl rfl) with hok | hne
          · rw [ha] at hok; cases hok
          · exact hne
        exact ⟨⟨hr, hne⟩, fun b hb => hall b (Or.inr hb)⟩

/-- C4: the event-log lookup raises InvalidDocumentException whenever no
export row matches the container with an arrival event, and never returns
an empty sequence successfully; and during a reconciliation pass every
reference whose body fails is removed from the pending cache while every
reference whose body succeeds is still processed and retained, so one
failure never aborts the batch. -/
theorem c4_lookup_miss_and_skip :
    (∀ (container_number : String) (table : List EventRow),
        table.filter (fun r =>
            r.container == container_number && r.point_event == "ARRIVE") = [] →
        get_date_from_container_number container_number table =
          .error .invalidDocument) ∧
    (∀ (container_number : String) (table : List EventRow),
        get_date_from_container_number container_number table ≠ .ok []) ∧
    (∀ (outcome : String → DocOutcome) (store : List Row) (r : Row),
        r ∈ process_documents outcome store ↔
          (r ∈ store ∧ outcome r.reference_number = .ok)) := by
  refine ⟨?_, ?_, ?_⟩
  · intro container_number table hfilter
    simp [get_date_from_container_number, hfilter]
  · intro container_number table
    unfold get_date_from_container_number
    by_cases hq : (table.filter (fun r =>
        r.container == container_number && r.point_event == "ARRIVE")).isEmpty
    · simp [hq]
    · simp only [hq, Bool.false_eq_true, if_false, ne_eq, Except.ok.injEq]
      intro hmap
      exact hq (by simp [List.isEmpty_iff, List.map_eq_nil_iff.mp hmap])
  · intro outcome store r
    unfold process_documents
    rw [process_documents_loop_mem]
    constructor
    · rintro ⟨hr, hall⟩
      refine ⟨hr, ?_⟩
      rcases hall r.reference_number (List.mem_map_of_mem _ hr) with hok | hne
      · exact hok
      · exact absurd rfl hne
    · rintro ⟨hr, hok⟩
      refine ⟨hr, ?_⟩
      intro a _
      by_cases hae : r.reference_number = a
      · exact Or.inl (hae ▸ hok)
      · exact Or.inr hae

theorem c4_lookup_miss_and_skip_witness :
    get_date_from_container_number "C2" [⟨"C1", "ARRIVE", 0⟩] =
      .error .invalidDocument :=
  c4_lookup_miss_and_skip.1 "C2" [⟨"C1", "ARRIVE", 0⟩] (by decide)

theorem charDigit_digitChar : ∀ d : Nat, d < 10 → charDigit (digitChar d) = some d := by
  decide

theorem digitChar_ne_dash (d : Nat) : digitChar d ≠ '-' := by
  by_cases h : d < 10
  · interval_cases d <;> decide
  · unfold digitChar digitChars
    rw [List.getD_eq_default]
    · decide
    · simp only [List.length_cons, List.length_nil]
      omega

theorem parse_acc_append (xs ys : List Char) :
    ∀ acc, parseDigitsAcc acc (xs ++ ys) =
      (parseDigitsAcc acc xs).bind (fun v => parseDigitsAcc v ys) := by
  induction xs with
  | nil => intro acc; simp [parseDigitsAcc]
  | cons c cs ih =>
    intro acc
    cases h : charDigit c with
    | none => simp [parseDigitsAcc, h]
    | some d => simp [parseDigitsAcc, h, ih]

theorem natDigits_lt_ten : ∀ n : Nat, ∀ d ∈ natDigits n, d < 10 := by
  intro n
  induction n using Nat.strong_induction_on with
  | _ n ih =>
    by_cases h : n < 10
    · unfold natDigits
      simp only [h, dif_pos, List.mem_singleton]
      rintro d rfl
      exact h
    · unfold natDigits
      simp only [h, dif_neg, not_false_iff, List.mem_cons]
      rintro d (rfl | hd)
      · exact Nat.mod_lt _ (by omega)
      · exact ih (n / 10) (Nat.div_lt_self (by omega) (by omega)) d hd

theorem natToChars_ne_nil (n : Nat) : natToChars n ≠ [] := by
  unfold natToChars
  simp only [ne_eq, List.map_eq_nil_iff, List.reverse_eq_nil_iff]
  unfold natDigits
  split <;> simp

theorem parse_natToChars (n : Nat) :
    ∀ acc, parseDigitsAcc acc (natToChars n) =
      some (acc * 10 ^ (natToChars n).length + n) := by
  induction n using Nat.strong_induction_on with
  | _ n ih =>
    intro acc
    by_cases h : n < 10
    · have h1 : natToChars n = [digitChar n] := by
        unfold natToChars natDigits
        simp [h]
      rw [h1]
      simp [parseDigitsAcc, charDigit_digitChar n h]
    · have h2 : natToChars n = natToChars (n / 10) ++ [digitChar (n % 10)] := by
        unfold natToChars
        conv_lhs => rw [natDigits]
        simp [h]
      rw [h2, parse_acc_append,
        ih (n / 10) (Nat.div_lt_self (by omega) (by omega)) acc]
      simp only [Option.bind_some, parseDigitsAcc,
        charDigit_digitChar (n % 10) (Nat.mod_lt _ (by omega)),
        List.length_append, List.length_singleton, Option.some.injEq]
      simp only [Option.some_bind, Option.some.injEq]
      rw [pow_succ, ← Nat.mul_assoc]
      omega

theorem parse_zeros (k : Nat) :
    parseDigitsAcc 0 (List.replicate k '0') = some 0 := by
  induction k with
  | zero => rfl
  | succ k ih =>
    rw [List.replicate_succ]
    show parseDigitsAcc (0 * 10 + 0) (List.replicate k '0') = some 0
    simpa using ih

theorem parseNat_padLeft (w n : Nat) :
    parseNat (padLeft w (natToChars n)) = some n := by
  have hne : padLeft w (natToChars n) ≠ [] := by
    unfold padLeft
    simp [natToChars_ne_nil n]
  unfold parseNat padLeft
  rw [if_neg (by unfold padLeft at hne; exact hne)]
  rw [parse_acc_append, parse_zeros]
  simp [parse_natToChars n 0]

theorem splitDash_no_dash (xs : List Char) (h : ∀ c ∈ xs, c ≠ '-') :
    splitDash xs = [xs] := by
  induction xs with
  | nil => rfl
  | cons c cs ih =>
    have hc : c ≠ '-' := h c (by simp)
    have ih' := ih (fun c' hc' => h c' (by simp [hc']))
    simp [splitDash, hc, ih']

theorem splitDash_append (xs rest : List Char) (h : ∀ c ∈ xs, c ≠ '-') :
    splitDash (xs ++ '-' :: rest) = xs :: splitDash rest := by
  induction xs with
  | nil => simp [splitDash]
  | cons c cs ih =>
    have hc : c ≠ '-' := h c (by simp)
    have ih' := ih (fun c' hc' => h c' (by simp [hc']))
    simp [splitDash, hc, ih']

theorem padLeft_digits_ne_dash (w n : Nat) :
    ∀ c ∈ padLeft w (natToChars n), c ≠ '-' := by
  intro c hc
  unfold padLeft at hc
  rcases List.mem_append.mp hc with hmem | hmem
  · rw [List.eq_of_mem_replicate hmem]
    decide
  · unfold natToChars at hmem
    rcases List.mem_map.mp hmem with ⟨d, _, rfl⟩
    exact digitChar_ne_dash d

theorem str_to_date_date_to_iso (dt : Date) (h : ValidDate dt) :
    str_to_date (date_to_iso dt) = some dt := by
  unfold str_to_date date_to_iso dateChars
  show (match splitDash (padLeft 4 (natToChars dt.year) ++
      '-' :: (padLeft 2 (natToChars dt.month) ++
        '-' :: padLeft 2 (natToChars dt.day))) with
    | [ys, ms, ds] =>
      match parseNat ys, parseNat ms, parseNat ds with
      | some y, some m, some d =>
        if ValidDate ⟨y, m, d⟩ then some ⟨y, m, d⟩ else none
      | _, _, _ => none
    | _ => none) = some dt
  rw [splitDash_append _ _ (padLeft_digits_ne_dash 4 dt.year),
    splitDash_append _ _ (padLeft_digits_ne_dash 2 dt.month),
    splitDash_no_dash _ (padLeft_digits_ne_dash 2 dt.day)]
  simp only [parseNat_padLeft]
  have heta : (⟨dt.year, dt.month, dt.day⟩ : Date) = dt := rfl
  rw [heta, if_pos h]

theorem load_row_write_row (r : Row) (h : ValidDate r.creation_date) :
    load_row (write_row r) = some r := by
  unfold load_row write_row
  rw [str_to_date_date_to_iso _ h]
  rfl

theorem load_store_roundtrip :
    ∀ rows : List Row, (∀ r ∈ rows, ValidDate r.creation_date) →
      load_store_typed (write_store rows) = some rows := by
  intro rows
  induction rows with
  | nil => intro _; rfl
  | cons a rows ih =>
    intro h
    have ha := h a (by simp)
    have ih' := ih (fun r hr => h r (by simp [hr]))
    unfold write_store at ih' ⊢
    simp only [List.map_cons, load_store_typed, load_row_write_row a ha, ih']

/-- C6: a store whose rows carry representable calendar dates, written by
cache_row through write_csv and loaded back with the str.to_date re-parse,
reproduces every row exactly, in particular each creation_date as the same
calendar date; consequently the append path of cache_row, which performs
that re-parse before concatenation, serializes the extended store with all
previous rows intact. -/
theorem c6_creation_date_roundtrip (rows : List Row)
    (h : ∀ r ∈ rows, ValidDate r.creation_date) :
    load_store_typed (write_store rows) = some rows ∧
    ∀ r : Row, append_row_csv r (write_store rows) =
      some (write_store (rows ++ [r])) := by
  have main := load_store_roundtrip rows h
  refine ⟨main, fun r => ?_⟩
  unfold append_row_csv
  rw [main]
  rfl

theorem c6_creation_date_roundtrip_witness :
    load_store_typed (write_store
        [⟨"R1", "AG", "t", "c", "w", "1", "d", ⟨2024, 3, 5⟩⟩]) =
      some [⟨"R1", "AG", "t", "c", "w", "1", "d", ⟨2024, 3, 5⟩⟩] :=
  (c6_creation_date_roundtrip
    [⟨"R1", "AG", "t", "c", "w", "1", "d", ⟨2024, 3, 5⟩⟩] (by decide)).1

/-- C1: for a present, non-empty backing store and a row list whose first
reference number already occurs in the store, cache_row raises
CachedException and the store value after the call is exactly the store
value before it, so the backing rows.csv is unchanged. -/
theorem c1_cache_row_already_cached (r0 : Row) (rest : List Row)
    (old_cache : List Row)
    (h : check_reference_number r0.reference_number old_cache = true) :
    cache_row (r0 :: rest) (some old_cache) =
      (some old_cache, some .alreadyCached) := by
  simp [cache_row, h]

theorem c1_cache_row_already_cached_witness :
    cache_row [⟨"R1", "AG", "t", "c", "w", "1", "d", ⟨2024, 1, 3⟩⟩]
        (some [⟨"R1", "AG", "t", "c", "w", "1", "d", ⟨2024, 1, 2⟩⟩]) =
      (some [⟨"R1", "AG", "t", "c", "w", "1", "d", ⟨2024, 1, 2⟩⟩],
        some .alreadyCached) :=
  c1_cache_row_already_cached _ [] _ (by decide)

/-- C2, evidence for the code bug: the per-page worker reads the
misspelled attribute creaton_date at the stop check, so on a page whose
first row is a boundary row (status AG, creation date strictly before
start_date, not after end_date) the crawl aborts with an uncaught
AttributeError instead of terminating cleanly; the same abort happens for
an in-window row, so no row is ever accepted either. -/
theorem c2_crawl_typo_aborts :
    (dateLt (⟨2023, 12, 31⟩ : Date) (⟨2024, 1, 1⟩ : Date) = true) ∧
    crawl_database ⟨⟨2024, 1, 1⟩, ⟨2024, 1, 8⟩⟩
        [[⟨"R100", "AG", "t", "c", "w", "1", "d", ⟨2023, 12, 31⟩⟩]] none =
      .aborted .attributeError none ∧
    crawl_database ⟨⟨2024, 1, 1⟩, ⟨2024, 1, 8⟩⟩
        [[⟨"R200", "AG", "t", "c", "w", "1", "d", ⟨2024, 1, 5⟩⟩]] none =
      .aborted .attributeError none := by
  decide

/-- C5 counterexample: over an absent backing store, get_reference_numbers
returns the Python value None, which is not an empty sequence. -/
theorem c5_get_reference_numbers_absent_counterexample :
    get_reference_numbers none = none ∧ get_reference_numbers none ≠ some [] := by
  decide

/-- C5 amended: over an absent store get_reference_numbers returns None
without erroring, and the point lookup check_scraped over a present store
raises a ValueError when the key is absent, rather than returning false. -/
theorem c5_absent_reads (rows : List ScrapedRow) (reference_number : String)
    (h : ∀ r ∈ rows, r.reference_number ≠ reference_number) :
    get_reference_numbers none = none ∧
    check_scraped reference_number (some rows) = some (.error .valueError) := by
  refine ⟨rfl, ?_⟩
  have hf : rows.filter (fun r => r.reference_number == reference_number) = [] := by
    rw [List.filter_eq_nil_iff]
    intro r hr
    simpa using h r hr
  simp [check_scraped, hf]

theorem c5_absent_reads_witness :
    get_reference_numbers none = none ∧
    check_scraped "B" (some [⟨"A", true⟩]) = some (.error .valueError) :=
  c5_absent_reads [⟨"A", true⟩] "B" (by decide)

/-- C7: the shared end_date validator of the Dates models accepts a pair
whose difference is exactly one week and rejects with a ValueError any
pair whose difference exceeds one week. -/
theorem c7_dates_week_range (s e : Date) :
    (daysBetween s e = 7 → validate_date_range (some s) e = .ok e) ∧
    (7 < daysBetween s e → validate_date_range (some s) e = .error .valueError) := by
  constructor
  · intro h
    simp [validate_date_range, h]
  · intro h
    simp [validate_date_range, h]

theorem c7_dates_week_range_witness :
    daysBetween ⟨2024, 1, 1⟩ ⟨2024, 1, 8⟩ = 7 ∧
    validate_date_range (some ⟨2024, 1, 1⟩) ⟨2024, 1, 8⟩ = .ok ⟨2024, 1, 8⟩ ∧
    7 < daysBetween ⟨2024, 1, 1⟩ ⟨2024, 1, 9⟩ ∧
    validate_date_range (some ⟨2024, 1, 1⟩) ⟨2024, 1, 9⟩ = .error .valueError :=
  ⟨by decide, (c7_dates_week_range ⟨2024, 1, 1⟩ ⟨2024, 1, 8⟩).1 (by decide),
    by decide, (c7_dates_week_range ⟨2024, 1, 1⟩ ⟨2024, 1, 9⟩).2 (by decide)⟩

/-- C8 counterexample: the Dates revision in app/models/scraper.py types
its fields as plain dates, so construction succeeds for a start_date that
is not in the past; with today taken as 2024-01-01, the pair of that very
day is accepted although start_date does not precede today. -/
theorem c8_models_dates_accepts_non_past :
    is_past_date ⟨2024, 1, 1⟩ ⟨2024, 1, 1⟩ = false ∧
    models_dates_construct ⟨2024, 1, 1⟩ ⟨2024, 1, 1⟩ =
      .ok ⟨⟨2024, 1, 1⟩, ⟨2024, 1, 1⟩⟩ :=
  ⟨rfl, rfl⟩

/-- C8 amended: only the Dates revision in app/schemas/scraper.py requires
both fields to lie strictly in the past, on top of the one-week rule; the
revision in app/models/scraper.py, the one the scrapers import, enforces
the one-week rule alone, with no constraint against today. -/
theorem c8_past_date_validation :
    (∀ today s e : Date,
        schemas_dates_construct today s e = .ok ⟨s, e⟩ ↔
          (is_past_date today s = true ∧ is_past_date today e = true ∧
            ¬ 7 < daysBetween s e)) ∧
    (∀ s e : Date,
        models_dates_construct s e = .ok ⟨s, e⟩ ↔ ¬ 7 < daysBetween s e) := by
  constructor
  · intro today s e
    unfold schemas_dates_construct validate_date_range
    by_cases h1 : is_past_date today s <;> by_cases h2 : is_past_date today e <;>
      by_cases h3 : (7 : Int) < daysBetween s e <;> simp [h1, h2, h3]
  · intro s e
    unfold models_dates_construct validate_date_range
    by_cases h3 : (7 : Int) < daysBetween s e <;> simp [h3]

/-- C9: a Document built with container_type LCL carries a quantity that
ends in the unit label, and the spec-modelled LCL reconciliation record of
a released shipment carries release_status Released, copied from
document_status with no event lookup. -/
theorem c9_lcl_document_and_release (invoice qty ref : String) :
    (∃ p, (mk_document invoice "LCL" qty).quantity = p ++ "PK - PACKAGE") ∧
    (lcl_release_record ref (mk_document invoice "LCL" qty)
        "Released").release_status = "Released" ∧
    (lcl_release_record ref (mk_document invoice "LCL" qty)
        "Released").quantity = qty ++ " PK - PACKAGE" := by
  refine ⟨⟨qty ++ " ", ?_⟩, rfl, rfl⟩
  show add_label "LCL" qty = qty ++ " " ++ "PK - PACKAGE"
  have hsp : (" " : String) ++ "PK - PACKAGE" = " PK - PACKAGE" := rfl
  rw [String.append_assoc, hsp]
  rfl

/-- C10, evidence for the code bug: the second branch of the classifier in
app/scraper/intercommerce_scraper.py tests a truthy string literal instead
of a membership, so a cell list containing none of the four status words is
classified Approved where the specified membership test yields no status;
and the older revision in app/scraper/scraper.py omits Auto-Inspected from
its membership test, missing a list the specified test classifies
Approved. -/
theorem c10_release_classifier_truthiness :
    get_release_status ["Pending"] = some "Approved" ∧
    release_status_spec ["Pending"] = none ∧
    get_release_table ["Auto-Inspected"] = none ∧
    release_status_spec ["Auto-Inspected"] = some "Approved" := by
  decide

end Ecophil
